import Mathlib

/-!
Shallow embedding of `src/deker/tools/array.py` (deker-mpi).

The file models the four functions of that module —
`calculate_total_cells_in_array`, `convert_human_memory_to_bytes`,
`check_memory`, `generate_uid` — and the dispatch wrapper `get_id`, and
proves or refutes the specification claims about them.

Modelling conventions:
* Python integers are `Int` / `Nat` (arbitrary precision, as in Python).
* `np.prod(np.array(seq))` operates on a signed 64-bit (int64) array, so the
  product is taken with wraparound modulo 2^64 and the final value is read
  back as a signed 64-bit integer; `int(...)` of the resulting scalar is
  exact.  Extents of valid shapes are assumed to fit in int64.
  `np.prod` of the empty array is the float `1.0`, whence `int(...) = 1`.
* Fallible functions return `Except DekerError α`; the error constructors
  mirror `DekerValidationError`, `DekerMemoryError` (from `deker.errors`),
  Python's built-in `TypeError`, and Python's `IndexError`.
* External collaborators (the OS statistics provider, the UTC clock, the
  `uuid.uuid5` hash, the human-size formatter) are injected as arguments,
  as §6 of the specification describes them: opaque utilities consumed at
  their interface boundary.
-/

namespace DekerTools

/-- Errors surfaced by the module.  `DekerValidationError` and
`DekerMemoryError` come from `deker.errors`; `TypeError` and `IndexError`
are the Python built-ins of the same names. -/
inductive DekerError where
  | DekerValidationError (msg : String)
  | DekerMemoryError (msg : String)
  | TypeError (msg : String)
  | IndexError
  deriving DecidableEq, Repr

/-- A Python value passed to `convert_human_memory_to_bytes`: an `int`, a
`str` (as its character list), or any other object (e.g. the float `3.5`),
carried with a printable description. -/
inductive PyValue where
  | int (n : Int)
  | str (s : List Char)
  | other (descr : String)
  deriving DecidableEq, Repr

/-- How a `PyValue` renders inside a Python f-string (a `str` interpolates
without quotes). -/
def pyRepr : PyValue → String
  | .int n => toString n
  | .str s => String.mk s
  | .other d => d

/-- Wraparound modulus of a 64-bit machine integer. -/
def WRAP64 : Nat := 2 ^ 64

/-- Read a natural number, reduced modulo 2^64, back as a signed 64-bit
integer (two's complement): values at or above 2^63 are negative. -/
def toInt64 (n : Nat) : Int :=
  if n % WRAP64 < 2 ^ 63 then ((n % WRAP64 : Nat) : Int)
  else ((n % WRAP64 : Nat) : Int) - (WRAP64 : Int)

/-- `calculate_total_cells_in_array(seq)` = `int(np.prod(np.array(seq)))`.
The numpy product of a non-empty int64 array multiplies with int64
wraparound (modulo 2^64, read back signed); the empty array has float
dtype and product `1.0`, so `int(...)` yields `1`. -/
def calculate_total_cells_in_array (seq : List Nat) : Int :=
  if seq.isEmpty then 1
  else toInt64 (seq.foldl (fun a x => a * x % WRAP64) 1)

/-- Whitespace stripped by Python's built-in `int(str)`. -/
def isPySpace (c : Char) : Bool :=
  c = ' ' || c = '\t' || c = '\n' || c = '\r'

/-- Strip leading and trailing whitespace, as `int(str)` does. -/
def stripPySpaces (s : List Char) : List Char :=
  ((s.dropWhile isPySpace).reverse.dropWhile isPySpace).reverse

/-- Decimal value of a digit string. -/
def digitsVal (ds : List Char) : Nat :=
  ds.foldl (fun a c => 10 * a + (c.toNat - 48)) 0

/-- Model of Python's built-in `int(str)`: optional surrounding whitespace,
an optional sign, then a non-empty run of decimal digits.  (Underscore
digit grouping and non-ASCII digits are outside the modelled fragment; no
input in this development uses them.)  `none` models the `ValueError`. -/
def pyParseInt (s : List Char) : Option Int :=
  match stripPySpaces s with
  | '+' :: ds =>
      if !ds.isEmpty && ds.all Char.isDigit then some (digitsVal ds) else none
  | '-' :: ds =>
      if !ds.isEmpty && ds.all Char.isDigit then some (-(digitsVal ds : Int)) else none
  | ds =>
      if !ds.isEmpty && ds.all Char.isDigit then some (digitsVal ds) else none

/-- The `mapping` dict of `convert_human_memory_to_bytes`:
`{"k": 1024, "m": 1024**2, "g": 1024**3}`; `none` models the `KeyError`. -/
def mapping (c : Char) : Option Nat :=
  if c = 'k' then some 1024
  else if c = 'm' then some (1024 ^ 2)
  else if c = 'g' then some (1024 ^ 3)
  else none

/-- The `error` message built at the top of `convert_human_memory_to_bytes`:
it names the offending value and the accepted formats. -/
def memory_limit_error (v : PyValue) : String :=
  "invalid memory_limit value: " ++ pyRepr v ++
    "; expected `int` or `str` in format [number][unit] " ++
    "where unit is one of [\"k\", \"K\", \"m\", \"M\", \"g\", \"G\"], e.g. \"8G\" or \"512m\""

/-- `convert_human_memory_to_bytes(memory_limit)`.

Mirrors the source control flow: a non-`int`/non-`str` raises
`DekerValidationError`; an `int` is returned unchanged; a `str` is first
tried as `int(memory_limit)` whole; failing that, the last character
(lower-cased — `memory_limit.lower()[-1]`, which on the empty string raises
`IndexError` outside any `try`) selects a multiplier from `mapping` and the
remaining prefix is parsed with `int`; `ValueError`/`KeyError` in that last
step are caught and re-raised as `DekerValidationError`. -/
def convert_human_memory_to_bytes : PyValue → Except DekerError Int
  | .int n => .ok n
  | .other d => .error (.DekerValidationError (memory_limit_error (.other d)))
  | .str s =>
    match pyParseInt s with
    | some n => .ok n
    | none =>
      match s.getLast? with
      | none => .error .IndexError
      | some c =>
        match pyParseInt s.dropLast, mapping c.toLower with
        | some n, some m => .ok (n * m)
        | _, _ => .error (.DekerValidationError (memory_limit_error (.str s)))

/-- The `DekerMemoryError` message of `check_memory`.  The external
human-size formatter `convert_size_to_human` is abstracted as the decimal
rendering of the byte count (the claims do not depend on its format). -/
def check_memory_error_message (shape : List Nat) (itemsize : Nat)
    (array_size_bytes limit mem_limit_from_settings : Int) : String :=
  "Can not allocate " ++ toString array_size_bytes ++
    " for array/subset with shape " ++ toString shape ++
    " and dtype of itemsize " ++ toString itemsize ++
    ". Current Deker limit per array/subset is " ++ toString limit ++
    ". Value in config: " ++ toString mem_limit_from_settings ++
    " bytes. Reduce shape or dtype of your array/subset or increase Deker RAM limit."

/-- `check_memory(shape, dtype, mem_limit_from_settings)`.

`dtype` enters only through `np.dtype(dtype).itemsize`, so it is modelled by
that byte width.  The OS statistics collaborator
(`virtual_memory().available`, `swap_memory().free`) is injected as the two
arguments `availableRAM` and `freeSwap`.  The guard computes
`array_size_bytes = itemsize * calculate_total_cells_in_array(shape)`,
`limit = min(mem_limit_from_settings, availableRAM + freeSwap)`, and raises
`DekerMemoryError` iff `array_size_bytes > limit`. -/
def check_memory (shape : List Nat) (itemsize : Nat)
    (mem_limit_from_settings : Int) (availableRAM freeSwap : Nat) :
    Except DekerError Unit :=
  let array_values := calculate_total_cells_in_array shape
  let array_size_bytes := (itemsize : Int) * array_values
  let current_limit : Int := (availableRAM : Int) + (freeSwap : Int)
  let limit := min mem_limit_from_settings current_limit
  if array_size_bytes > limit then
    .error (.DekerMemoryError
      (check_memory_error_message shape itemsize array_size_bytes limit
        mem_limit_from_settings))
  else .ok ()

/-- Modelled from the spec: `ArrayType` (from
`deker/types/private/enums.py`, not under `src/`) is "an enumeration with
exactly two variants", the two recognized array-entity kinds. -/
inductive ArrayType where
  | array
  | varray
  deriving DecidableEq, Repr

/-- Modelled from the spec: `.value`, "the entity kind's string label" of
each `ArrayType` variant. -/
def ArrayType.value : ArrayType → String
  | .array => "array"
  | .varray => "varray"

/-- `uuid.NAMESPACE_X500` = `6ba7b814-9dad-11d1-80b4-00c04fd430c8`, as a
128-bit natural number. -/
def NAMESPACE_X500 : Nat := 0x6ba7b8149dad11d180b400c04fd430c8

/-- `uuid.NAMESPACE_OID` = `6ba7b812-9dad-11d1-80b4-00c04fd430c8`, as a
128-bit natural number. -/
def NAMESPACE_OID : Nat := 0x6ba7b8129dad11d180b400c04fd430c8

/-- The namespace selection of `generate_uid`:
`uuid.NAMESPACE_X500 if array_type == ArrayType.array else uuid.NAMESPACE_OID`. -/
def uid_namespace (t : ArrayType) : Nat :=
  if t = ArrayType.array then NAMESPACE_X500 else NAMESPACE_OID

/-- The argument passed to `generate_uid`: either an `ArrayType` member or
any other Python object (rejected by the `isinstance` check), carried with
a printable description. -/
inductive UidArg where
  | arrayType (t : ArrayType)
  | other (descr : String)
  deriving DecidableEq, Repr

/-- `generate_uid(array_type)`.

The `uuid.uuid5` name-based hash and the clock are external collaborators,
injected as `uuid5` (namespace and name to rendered identifier) and
`now_iso` (= `get_utc().isoformat()`).  A non-`ArrayType` argument raises
`TypeError` with the fixed message of the source; otherwise the identifier
is `str(uuid5(namespace, array_type.value + get_utc().isoformat()))`. -/
def generate_uid (uuid5 : Nat → String → String) (now_iso : String) :
    UidArg → Except DekerError String
  | .other _ => .error (.TypeError "Invalid argument type. Array type is required")
  | .arrayType t => .ok (uuid5 (uid_namespace t) (t.value ++ now_iso))

/-- The object handed to `get_id`: modelled from the spec for the classes
`Array` and `VArray` (from `deker/arrays.py`, not under `src/`), "the two
recognized object shapes", as disjoint opaque tags; anything else carries
the rendering of `type(arr)`. -/
inductive PyObj where
  | arrayObj
  | varrayObj
  | otherObj (typeName : String)
  deriving DecidableEq, Repr

/-- `get_id(array)`: singledispatch on the object's class.  An `Array`
yields `generate_uid(ArrayType.array)`, a `VArray` yields
`generate_uid(ArrayType.varray)`, and any other object raises
`TypeError(f"Invalid object type: \x7btype(arr)\x7d")`. -/
def get_id (uuid5 : Nat → String → String) (now_iso : String) :
    PyObj → Except DekerError String
  | .arrayObj => generate_uid uuid5 now_iso (.arrayType .array)
  | .varrayObj => generate_uid uuid5 now_iso (.arrayType .varray)
  | .otherObj t => .error (.TypeError ("Invalid object type: " ++ t))

/-- A concrete stand-in for the injected `uuid.uuid5` collaborator, used
only to instantiate universally quantified theorems at closed inputs. -/
def uuid5_stub : Nat → String → String :=
  fun ns name => toString ns ++ "-" ++ name

end DekerTools

namespace DekerTools

/-! ### Helper lemmas about the embedding -/

lemma mem_of_mem_stripPySpaces {c : Char} {s : List Char}
    (h : c ∈ stripPySpaces s) : c ∈ s := by
  unfold stripPySpaces at h
  rw [List.mem_reverse] at h
  have h1 : c ∈ (s.dropWhile isPySpace).reverse :=
    (List.dropWhile_sublist _).subset h
  rw [List.mem_reverse] at h1
  exact (List.dropWhile_sublist _).subset h1

lemma not_mem_dropLast {c : Char} {s : List Char} (h : c ∉ s) :
    c ∉ s.dropLast :=
  fun hmem => h ((List.dropLast_sublist s).subset hmem)

lemma pyParseInt_nonneg {s : List Char} (hm : '-' ∉ s) {n : Int}
    (h : pyParseInt s = some n) : 0 ≤ n := by
  unfold pyParseInt at h
  split at h
  · split at h
    · rw [Option.some_inj] at h
      subst h
      exact Int.natCast_nonneg _
    · exact absurd h (by simp)
  · rename_i ds heq
    exact absurd (mem_of_mem_stripPySpaces (heq ▸ List.mem_cons_self '-' ds)) hm
  · split at h
    · rw [Option.some_inj] at h
      subst h
      exact Int.natCast_nonneg _
    · exact absurd h (by simp)

lemma mapping_pos {c : Char} {m : Nat} (h : mapping c = some m) : 0 < m := by
  unfold mapping at h
  split_ifs at h <;> simp_all <;> omega

lemma foldl_wrap (seq : List Nat) (a : Nat) :
    seq.foldl (fun a x => a * x % WRAP64) (a % WRAP64) =
      a * seq.prod % WRAP64 := by
  induction seq generalizing a with
  | nil => simp
  | cons x xs ih =>
    have hstep : a % WRAP64 * x % WRAP64 = a * x % WRAP64 := Nat.mod_mul_mod
    calc (x :: xs).foldl (fun a x => a * x % WRAP64) (a % WRAP64)
        = xs.foldl (fun a x => a * x % WRAP64) (a % WRAP64 * x % WRAP64) := rfl
      _ = xs.foldl (fun a x => a * x % WRAP64) (a * x % WRAP64) := by rw [hstep]
      _ = a * x * xs.prod % WRAP64 := ih (a * x)
      _ = a * (x :: xs).prod % WRAP64 := by
          rw [List.prod_cons, mul_assoc]

lemma toInt64_mod (n : Nat) : toInt64 (n % WRAP64) = toInt64 n := by
  have hw : 0 < WRAP64 := by unfold WRAP64; positivity
  have h : n % WRAP64 % WRAP64 = n % WRAP64 :=
    Nat.mod_eq_of_lt (Nat.mod_lt _ hw)
  unfold toInt64
  rw [h]

lemma calculate_eq_toInt64_prod {seq : List Nat} (hne : seq ≠ []) :
    calculate_total_cells_in_array seq = toInt64 seq.prod := by
  unfold calculate_total_cells_in_array
  rw [if_neg (by simpa using hne)]
  have h1 : (1 : Nat) = 1 % WRAP64 := by norm_num [WRAP64]
  rw [show seq.foldl (fun a x => a * x % WRAP64) 1
        = seq.foldl (fun a x => a * x % WRAP64) (1 % WRAP64) from by rw [← h1],
    foldl_wrap, one_mul, toInt64_mod]

lemma toInt64_of_lt {n : Nat} (h : n < 2 ^ 63) : toInt64 n = (n : Int) := by
  unfold toInt64
  have hmod : n % WRAP64 = n := Nat.mod_eq_of_lt (by unfold WRAP64; omega)
  rw [hmod, if_pos h]

lemma toInt64_lt (n : Nat) : toInt64 n < 2 ^ 63 := by
  have hm : n % WRAP64 < WRAP64 := Nat.mod_lt _ (by unfold WRAP64; positivity)
  unfold toInt64
  split <;> rename_i hsplit
  · exact_mod_cast hsplit
  · unfold WRAP64 at hm ⊢
    omega

lemma calculate_eq_prod {seq : List Nat} (h : seq.prod < 2 ^ 63) :
    calculate_total_cells_in_array seq = (seq.prod : Int) := by
  rcases eq_or_ne seq [] with rfl | hne
  · simp [calculate_total_cells_in_array]
  · rw [calculate_eq_toInt64_prod hne, toInt64_of_lt h]

lemma check_memory_eq_ite (shape : List Nat) (itemsize : Nat)
    (mem_limit : Int) (ram swap : Nat) :
    check_memory shape itemsize mem_limit ram swap =
      if (itemsize : Int) * calculate_total_cells_in_array shape >
          min mem_limit ((ram : Int) + (swap : Int)) then
        .error (.DekerMemoryError (check_memory_error_message shape itemsize
          ((itemsize : Int) * calculate_total_cells_in_array shape)
          (min mem_limit ((ram : Int) + (swap : Int))) mem_limit))
      else .ok () := rfl

end DekerTools

namespace DekerTools

/-- C3 counterexample: the claim quantifies over every sequence of
non-negative integers, but `calculate_total_cells_in_array` multiplies in
int64, so the shape `[2^32, 2^32]`, whose true product is `2^64`, wraps
around to `0`. -/
theorem c3_counterexample :
    calculate_total_cells_in_array [4294967296, 4294967296] = 0 ∧
    ([4294967296, 4294967296] : List Nat).prod = 2 ^ 64 := by
  exact ⟨rfl, by decide⟩

/-- C3 (amended): for every sequence of non-negative integers whose product
fits below `2^63` (the signed 64-bit bound of the numpy accumulator),
`calculate_total_cells_in_array` equals the product of the elements, and on
the empty sequence it returns 1. -/
theorem c3_total_cells_eq_prod (seq : List Nat) (h : seq.prod < 2 ^ 63) :
    calculate_total_cells_in_array seq = (seq.prod : Int) ∧
    calculate_total_cells_in_array [] = 1 :=
  ⟨calculate_eq_prod h, rfl⟩

/-- C3 witness: the amended theorem evaluated on the concrete shape
`[3, 4]`. -/
theorem c3_total_cells_eq_prod_witness :
    ([3, 4] : List Nat).prod < 2 ^ 63 ∧
      (calculate_total_cells_in_array [3, 4] = (([3, 4] : List Nat).prod : Int) ∧
       calculate_total_cells_in_array [] = 1) :=
  ⟨by decide, c3_total_cells_eq_prod [3, 4] (by decide)⟩

/-- C5 counterexample: for the shape `[4294967296, 8589934592]`, whose true
cell count `2^65` exceeds the 64-bit range, `calculate_total_cells_in_array`
does not fail with any overflow error: it returns the wrapped value `0`. -/
theorem c5_counterexample :
    calculate_total_cells_in_array [4294967296, 8589934592] = 0 ∧
    ([4294967296, 8589934592] : List Nat).prod = 2 ^ 65 := by
  exact ⟨rfl, by decide⟩

/-- C5 (amended): for every non-empty shape whose product reaches the signed
64-bit bound, `calculate_total_cells_in_array` raises no overflow error; it
returns the product wrapped modulo 2^64 and read back as a signed 64-bit
value, which is never the true product. -/
theorem c5_overflow_wraps (seq : List Nat) (hne : seq ≠ [])
    (hbig : 2 ^ 63 ≤ seq.prod) :
    calculate_total_cells_in_array seq = toInt64 seq.prod ∧
    calculate_total_cells_in_array seq ≠ (seq.prod : Int) := by
  have h1 := calculate_eq_toInt64_prod hne
  refine ⟨h1, ?_⟩
  rw [h1]
  have h2 := toInt64_lt seq.prod
  have h3 : (2 ^ 63 : Int) ≤ (seq.prod : Int) := by exact_mod_cast hbig
  omega

/-- C5 witness: the amended theorem evaluated on the concrete shape
`[2^62, 4]`, whose wrapped cell count is 0. -/
theorem c5_overflow_wraps_witness :
    ([2 ^ 62, 4] : List Nat) ≠ [] ∧ 2 ^ 63 ≤ ([2 ^ 62, 4] : List Nat).prod ∧
      (calculate_total_cells_in_array [2 ^ 62, 4] = toInt64 (([2 ^ 62, 4] : List Nat).prod) ∧
       calculate_total_cells_in_array [2 ^ 62, 4] ≠ ((([2 ^ 62, 4] : List Nat).prod : Nat) : Int)) :=
  ⟨by decide, by decide, c5_overflow_wraps [2 ^ 62, 4] (by decide) (by decide)⟩

/-- C1 counterexample: the claim quantifies over every shape, but for the
shape `[2^32, 2^32]` with 8-byte elements the int64 product wraps to 0, so
`check_memory` computes a required size of 0 bytes and passes even though
the product of the extents times the byte width, `2^67`, exceeds the
effective limit `min 100 (0 + 0) = 0`. -/
theorem c1_counterexample :
    check_memory [4294967296, 4294967296] 8 100 0 0 = .ok () ∧
    (4294967296 * 4294967296 * 8 : Int) > min 100 ((0 : Int) + 0) := by
  exact ⟨rfl, by decide⟩

/-- C1 (amended): for every shape whose product of extents fits below
`2^63`, every element byte width and configured limit, `check_memory`
compares `requiredBytes = itemsize * prod(shape)` against
`effectiveLimit = min(configuredLimit, availableRAM + freeSwap)`, raising
`DekerMemoryError` exactly when `requiredBytes > effectiveLimit` and
returning normally otherwise. -/
theorem c1_check_memory_guard (shape : List Nat) (itemsize : Nat)
    (mem_limit : Int) (ram swap : Nat) (hfit : shape.prod < 2 ^ 63) :
    (check_memory shape itemsize mem_limit ram swap = .ok () ↔
      (itemsize : Int) * (shape.prod : Int) ≤ min mem_limit ((ram : Int) + (swap : Int))) ∧
    (check_memory shape itemsize mem_limit ram swap =
        .error (.DekerMemoryError (check_memory_error_message shape itemsize
          ((itemsize : Int) * (shape.prod : Int))
          (min mem_limit ((ram : Int) + (swap : Int))) mem_limit)) ↔
      (itemsize : Int) * (shape.prod : Int) > min mem_limit ((ram : Int) + (swap : Int))) := by
  rw [check_memory_eq_ite, calculate_eq_prod hfit]
  constructor
  · constructor
    · intro hok
      by_contra hgt
      push_neg at hgt
      rw [if_pos hgt] at hok
      exact Except.noConfusion hok
    · intro hle
      rw [if_neg (by omega)]
  · constructor
    · intro herr
      by_contra hle
      push_neg at hle
      rw [if_neg (by omega)] at herr
      exact Except.noConfusion herr
    · intro hgt
      rw [if_pos hgt]

/-- C1 witness: the claim's own concrete instances — shape `(1000, 1000)`
with 8-byte elements and arbitrarily large physical memory (`2^80` bytes of
available RAM): a configured limit of 7,000,000 bytes fails with
`DekerMemoryError` and a configured limit of 9,000,000 bytes passes. -/
theorem c1_check_memory_guard_witness :
    ([1000, 1000] : List Nat).prod < 2 ^ 63 ∧
    check_memory [1000, 1000] 8 7000000 (2 ^ 80) 0 =
      .error (.DekerMemoryError (check_memory_error_message [1000, 1000] 8
        ((8 : Int) * (([1000, 1000] : List Nat).prod : Int))
        (min 7000000 (((2 ^ 80 : Nat) : Int) + ((0 : Nat) : Int))) 7000000)) ∧
    check_memory [1000, 1000] 8 9000000 (2 ^ 80) 0 = .ok () :=
  ⟨by decide,
   (c1_check_memory_guard [1000, 1000] 8 7000000 (2 ^ 80) 0 (by decide)).2.mpr (by decide),
   (c1_check_memory_guard [1000, 1000] 8 9000000 (2 ^ 80) 0 (by decide)).1.mpr (by decide)⟩

/-- C10: for every shape containing a zero extent,
`calculate_total_cells_in_array` returns 0, so `check_memory` computes a
required size of 0 bytes and returns normally whenever the effective limit
is non-negative. -/
theorem c10_zero_extent_passes (shape : List Nat) (h0 : 0 ∈ shape)
    (itemsize : Nat) (mem_limit : Int) (ram swap : Nat)
    (hlim : 0 ≤ min mem_limit ((ram : Int) + (swap : Int))) :
    calculate_total_cells_in_array shape = 0 ∧
    check_memory shape itemsize mem_limit ram swap = .ok () := by
  have hne : shape ≠ [] := by rintro rfl; simp at h0
  have hprod : shape.prod = 0 := List.prod_eq_zero h0
  have hc : calculate_total_cells_in_array shape = 0 := by
    rw [calculate_eq_toInt64_prod hne, hprod]
    rfl
  refine ⟨hc, ?_⟩
  rw [check_memory_eq_ite, hc, mul_zero, if_neg (by omega)]

/-- C10 witness: the theorem evaluated on the concrete shape `[0, 5]` with
8-byte elements, a configured limit of 10 bytes and no physical memory. -/
theorem c10_zero_extent_passes_witness :
    (0 : Nat) ∈ ([0, 5] : List Nat) ∧
      (0 : Int) ≤ min 10 (((0 : Nat) : Int) + ((0 : Nat) : Int)) ∧
      (calculate_total_cells_in_array [0, 5] = 0 ∧
       check_memory [0, 5] 8 10 0 0 = .ok ()) :=
  ⟨by decide, by decide, c10_zero_extent_passes [0, 5] (by decide) 8 10 0 0 (by decide)⟩

end DekerTools

namespace DekerTools

/-- C2: `convert_human_memory_to_bytes` returns any integer input
unchanged; a string that parses entirely as a plain integer is returned as
that byte count; otherwise the last character, lower-cased, selects the
multiplier 1024, 1024^2 or 1024^3 for `k`/`m`/`g` and the result is the
integer prefix times that multiplier; in particular `"8G"` gives
`8 * 1024^3`, `"512m"` gives `512 * 1024^2`, and `"1024"` gives `1024`. -/
theorem c2_parse_memory_limit :
    (∀ n : Int, 0 ≤ n → convert_human_memory_to_bytes (.int n) = .ok n) ∧
    (∀ (s : List Char) (n : Int), pyParseInt s = some n →
      convert_human_memory_to_bytes (.str s) = .ok n) ∧
    (∀ (s : List Char) (c : Char) (n : Int) (m : Nat),
      pyParseInt s = none → s.getLast? = some c →
      pyParseInt s.dropLast = some n → mapping c.toLower = some m →
      convert_human_memory_to_bytes (.str s) = .ok (n * m)) ∧
    convert_human_memory_to_bytes (.str "8G".data) = .ok (8 * 1024 ^ 3) ∧
    convert_human_memory_to_bytes (.str "512m".data) = .ok (512 * 1024 ^ 2) ∧
    convert_human_memory_to_bytes (.str "1024".data) = .ok 1024 := by
  refine ⟨fun n _ => rfl, fun s n h => ?_, fun s c n m h1 h2 h3 h4 => ?_, rfl, rfl, rfl⟩
  · simp [convert_human_memory_to_bytes, h]
  · simp [convert_human_memory_to_bytes, h1, h2, h3, h4]

/-- C2 witness: the integer conjunct of the theorem evaluated at 5. -/
theorem c2_parse_memory_limit_witness :
    (0 : Int) ≤ 5 ∧ convert_human_memory_to_bytes (.int 5) = .ok 5 :=
  ⟨by norm_num, c2_parse_memory_limit.1 5 (by norm_num)⟩

/-- C4 counterexample: the claim includes the empty string among the
malformed inputs failing with `DekerValidationError`, but on the empty
string `memory_limit.lower()[-1]` is evaluated outside any `try` block and
the call fails with `IndexError` instead. -/
theorem c4_counterexample :
    convert_human_memory_to_bytes (.str []) = .error .IndexError := rfl

/-- C4 (amended): every non-`int`/non-`str` input and every NON-EMPTY
malformed string (unparseable as a whole, and with an unparseable prefix or
an unrecognized suffix) fails with `DekerValidationError` carrying the
message that names the invalid value and the accepted formats; the empty
string alone escapes the handler and fails with `IndexError`. -/
theorem c4_validation_errors :
    (∀ d, convert_human_memory_to_bytes (.other d) =
      .error (.DekerValidationError (memory_limit_error (.other d)))) ∧
    (∀ (s : List Char) (c : Char), pyParseInt s = none → s.getLast? = some c →
      (pyParseInt s.dropLast = none ∨ mapping c.toLower = none) →
      convert_human_memory_to_bytes (.str s) =
        .error (.DekerValidationError (memory_limit_error (.str s)))) ∧
    convert_human_memory_to_bytes (.str []) = .error .IndexError ∧
    convert_human_memory_to_bytes (.str "abc".data) =
      .error (.DekerValidationError (memory_limit_error (.str "abc".data))) ∧
    convert_human_memory_to_bytes (.str "8x".data) =
      .error (.DekerValidationError (memory_limit_error (.str "8x".data))) ∧
    convert_human_memory_to_bytes (.other "3.5") =
      .error (.DekerValidationError (memory_limit_error (.other "3.5"))) := by
  refine ⟨fun d => rfl, fun s c h1 h2 h3 => ?_, rfl, rfl, rfl, rfl⟩
  rcases h3 with h3 | h3
  · cases hm : mapping c.toLower <;>
      simp [convert_human_memory_to_bytes, h1, h2, h3, hm]
  · cases hd : pyParseInt s.dropLast <;>
      simp [convert_human_memory_to_bytes, h1, h2, h3, hd]

/-- C4 witness: the hypothesis-bearing conjunct of the theorem evaluated on
the string `"8x"` (unrecognized suffix). -/
theorem c4_validation_errors_witness :
    pyParseInt "8x".data = none ∧ ("8x".data).getLast? = some 'x' ∧
      (pyParseInt ("8x".data).dropLast = none ∨ mapping 'x'.toLower = none) ∧
      convert_human_memory_to_bytes (.str "8x".data) =
        .error (.DekerValidationError (memory_limit_error (.str "8x".data))) :=
  ⟨rfl, rfl, Or.inr rfl,
   c4_validation_errors.2.1 "8x".data 'x' rfl rfl (Or.inr rfl)⟩

/-- C6 counterexample: the integer `-5` is returned unchanged, so
`convert_human_memory_to_bytes` can return normally with a negative byte
count, refuting the non-negativity invariant. -/
theorem c6_counterexample :
    convert_human_memory_to_bytes (.int (-5)) = .ok (-5) ∧ (-5 : Int) < 0 :=
  ⟨rfl, by norm_num⟩

/-- C6 (amended): whenever `convert_human_memory_to_bytes` returns
normally, the result is an integer byte count, and it is non-negative
provided the input itself is non-negative — a non-negative integer, or a
string containing no minus sign. -/
theorem c6_result_nonneg (v : PyValue) (r : Int)
    (h : convert_human_memory_to_bytes v = .ok r)
    (hv : (∃ n, v = .int n ∧ 0 ≤ n) ∨ (∃ s, v = .str s ∧ '-' ∉ s)) :
    0 ≤ r := by
  rcases hv with ⟨n, rfl, hn⟩ | ⟨s, rfl, hs⟩
  · simp only [convert_human_memory_to_bytes, Except.ok.injEq] at h
    omega
  · simp only [convert_human_memory_to_bytes] at h
    split at h
    · rename_i n hp
      rw [Except.ok.injEq] at h
      subst h
      exact pyParseInt_nonneg hs hp
    · split at h
      · exact absurd h (by simp)
      · rename_i c hl
        split at h
        · rename_i n m hd hm
          rw [Except.ok.injEq] at h
          have hk : 0 ≤ n := pyParseInt_nonneg (not_mem_dropLast hs) hd
          have hm0 : (0 : Int) ≤ (m : Int) := Int.natCast_nonneg m
          rw [← h]
          exact mul_nonneg hk hm0
        · exact absurd h (by simp)

/-- C6 witness: the theorem evaluated on the string `"8G"`, whose parse is
`8 * 1024^3 ≥ 0`. -/
theorem c6_result_nonneg_witness : (0 : Int) ≤ 8 * 1024 ^ 3 :=
  c6_result_nonneg (.str "8G".data) (8 * 1024 ^ 3) rfl
    (Or.inr ⟨"8G".data, rfl, by decide⟩)

end DekerTools

namespace DekerTools

/-- C7: `generate_uid` is deterministic given the pair (entity kind,
generation instant) — bit-identical clock renderings and equal kinds give
the same identifier — and the identifier is the name-based (uuid5-style)
hash seeded by the fixed namespace constant bound 1:1 to the kind
(`NAMESPACE_X500` for `array`, `NAMESPACE_OID` for `varray`, two distinct
fixed values) applied to the concatenation of the kind's string label with
the ISO-8601 rendering of the instant. -/
theorem c7_generate_uid_deterministic (uuid5 : Nat → String → String)
    (now1 now2 : String) (t1 t2 : ArrayType)
    (hn : now1 = now2) (ht : t1 = t2) :
    generate_uid uuid5 now1 (.arrayType t1) =
        generate_uid uuid5 now2 (.arrayType t2) ∧
    generate_uid uuid5 now1 (.arrayType t1) =
        .ok (uuid5 (uid_namespace t1) (t1.value ++ now1)) ∧
    uid_namespace ArrayType.array = NAMESPACE_X500 ∧
    uid_namespace ArrayType.varray = NAMESPACE_OID ∧
    NAMESPACE_X500 ≠ NAMESPACE_OID := by
  subst hn
  subst ht
  exact ⟨rfl, rfl, rfl, rfl, by decide⟩

/-- C7 witness: the theorem evaluated at a fixed instant and the `array`
kind, with a concrete stand-in for the injected `uuid5` collaborator. -/
theorem c7_generate_uid_deterministic_witness :
    generate_uid uuid5_stub "2023-01-01T00:00:00" (.arrayType .array) =
        generate_uid uuid5_stub "2023-01-01T00:00:00" (.arrayType .array) ∧
    generate_uid uuid5_stub "2023-01-01T00:00:00" (.arrayType .array) =
        .ok (uuid5_stub (uid_namespace ArrayType.array)
          (ArrayType.value ArrayType.array ++ "2023-01-01T00:00:00")) ∧
    uid_namespace ArrayType.array = NAMESPACE_X500 ∧
    uid_namespace ArrayType.varray = NAMESPACE_OID ∧
    NAMESPACE_X500 ≠ NAMESPACE_OID :=
  c7_generate_uid_deterministic uuid5_stub "2023-01-01T00:00:00"
    "2023-01-01T00:00:00" ArrayType.array ArrayType.array rfl rfl

/-- C8 counterexample: the claim says the `TypeError` names the invalid
kind, but the message raised by `generate_uid` is the fixed string
"Invalid argument type. Array type is required", identical for two
different invalid arguments, so it names neither. -/
theorem c8_counterexample :
    generate_uid uuid5_stub "2023-01-01T00:00:00" (.other "float: 3.5") =
      .error (.TypeError "Invalid argument type. Array type is required") ∧
    generate_uid uuid5_stub "2023-01-01T00:00:00" (.other "float: 3.5") =
      generate_uid uuid5_stub "2023-01-01T00:00:00" (.other "dict: \x7b\x7d") :=
  ⟨rfl, rfl⟩

/-- C8 (amended): `generate_uid` raises a `TypeError` — with the fixed
message "Invalid argument type. Array type is required", which does not
name the invalid kind — if and only if its argument is not one of the two
recognized `ArrayType` variants; for either recognized kind it never raises
and returns a complete identifier string. -/
theorem c8_generate_uid_type_guard (uuid5 : Nat → String → String)
    (now : String) (arg : UidArg) :
    ((∃ msg, generate_uid uuid5 now arg = .error (.TypeError msg)) ↔
      ∀ t, arg ≠ .arrayType t) ∧
    (∀ t, generate_uid uuid5 now (.arrayType t) =
      .ok (uuid5 (uid_namespace t) (t.value ++ now))) ∧
    (∀ d, generate_uid uuid5 now (.other d) =
      .error (.TypeError "Invalid argument type. Array type is required")) := by
  refine ⟨?_, fun t => rfl, fun d => rfl⟩
  cases arg with
  | arrayType t =>
    constructor
    · rintro ⟨msg, hmsg⟩
      exact absurd hmsg (by simp [generate_uid])
    · intro hne
      exact absurd rfl (hne t)
  | other d =>
    constructor
    · intro _ _
      exact fun hcontra => UidArg.noConfusion hcontra
    · intro _
      exact ⟨"Invalid argument type. Array type is required", rfl⟩

/-- C9: `get_id` maps an object of the `Array` shape to an identifier
generated for the `array` entity kind, an object of the `VArray` shape to
one generated for the `varray` kind, and fails on every other object with a
`TypeError` reporting the unrecognized object's type. -/
theorem c9_get_id_dispatch (uuid5 : Nat → String → String) (now : String) :
    get_id uuid5 now .arrayObj = generate_uid uuid5 now (.arrayType .array) ∧
    get_id uuid5 now .varrayObj = generate_uid uuid5 now (.arrayType .varray) ∧
    (∀ t, get_id uuid5 now (.otherObj t) =
      .error (.TypeError ("Invalid object type: " ++ t))) :=
  ⟨rfl, rfl, fun _ => rfl⟩

end DekerTools
